import Mathlib

/-!
# Telemetry Coordinator & Output-Mode State Machine — verification

A shallow embedding of the coordinator implemented in `src/pages/Index.tsx`
of the power-hub repository.  JavaScript numbers are modelled as rationals
(`ℚ`); the `Number(x.toFixed(d))` rounding idiom is modelled by `toFixedQ`;
the per-channel rolling history update `[...prev.slice(-59), v].slice(-60)`
is modelled by `pushBuf`.  The component's mutable refs and `useState` cells
are collected in an explicit `State` record, and the asynchronous callbacks
(simulator interval tick, poll completion, push-telemetry event, simulator
`useEffect` re-run, connection change) become a `step` function on `State`.
User-facing toasts are returned alongside the new state rather than stored,
mirroring the external `useToast` hook.
-/

namespace PowerHub

/-- `Number(x.toFixed(d))`: round to `d` decimal places.  ECMAScript
`toFixed` picks the closest scaled integer, preferring the larger one on
ties, which matches Mathlib's `round` (`⌊x + 1/2⌋`). -/
def toFixedQ (d : ℕ) (x : ℚ) : ℚ := (round (x * (10 : ℚ) ^ d) : ℚ) / (10 : ℚ) ^ d

/-- `Number(x.toFixed(3))` as used throughout `Index.tsx`. -/
def toFixed3 (x : ℚ) : ℚ := toFixedQ 3 x

/-- `Number(x.toFixed(4))` (simulator current). -/
def toFixed4 (x : ℚ) : ℚ := toFixedQ 4 x

/-- `Number(x.toFixed(2))` (simulator temperature). -/
def toFixed2 (x : ℚ) : ℚ := toFixedQ 2 x

/-- JavaScript `arr.slice(-n)` on an array of numbers: the last
`min n arr.length` elements, in order. -/
def sliceLast (n : ℕ) (l : List ℚ) : List ℚ := l.drop (l.length - n)

theorem sliceLast_eq_rtake (n : ℕ) (l : List ℚ) : sliceLast n l = l.rtake n := rfl

theorem sliceLast_length (n : ℕ) (l : List ℚ) :
    (sliceLast n l).length = min n l.length := by
  simp [sliceLast]
  omega

theorem sliceLast_concat (n : ℕ) (l : List ℚ) (v : ℚ) :
    sliceLast (n + 1) (l ++ [v]) = sliceLast n l ++ [v] := by
  rw [sliceLast_eq_rtake, sliceLast_eq_rtake, List.rtake_concat_succ]

theorem sliceLast_append_left (n m : ℕ) (l r : List ℚ) (h : n ≤ m + r.length) :
    sliceLast n (sliceLast m l ++ r) = sliceLast n (l ++ r) := by
  rw [sliceLast_eq_rtake, sliceLast_eq_rtake, sliceLast_eq_rtake]
  rw [List.rtake_eq_reverse_take_reverse, List.rtake_eq_reverse_take_reverse,
    List.rtake_eq_reverse_take_reverse]
  rw [List.reverse_append, List.reverse_append, List.reverse_reverse]
  rw [List.take_append_eq_append_take, List.take_append_eq_append_take]
  rw [List.take_take]
  have hmin : min (n - r.reverse.length) m = n - r.reverse.length := by
    simp only [List.length_reverse]
    omega
  rw [hmin]

/-- The rolling-buffer update used for every sparkline channel in
`Index.tsx`: `[...prev.slice(-59), v].slice(-60)`. -/
def pushBuf (buf : List ℚ) (v : ℚ) : List ℚ := sliceLast 60 (sliceLast 59 buf ++ [v])

theorem pushBuf_eq (buf : List ℚ) (v : ℚ) : pushBuf buf v = sliceLast 59 buf ++ [v] := by
  rw [pushBuf, sliceLast_append_left 60 59 buf [v] (by simp), sliceLast_concat]

theorem pushBuf_length_le (buf : List ℚ) (v : ℚ) : (pushBuf buf v).length ≤ 60 := by
  rw [pushBuf_eq]
  simp [sliceLast_length]

theorem foldl_pushBuf (b0 : List ℚ) (vs : List ℚ) (h : b0.length ≤ 60) :
    List.foldl pushBuf b0 vs = sliceLast 60 (b0 ++ vs) := by
  induction vs generalizing b0 with
  | nil =>
    simp [sliceLast, Nat.sub_eq_zero_of_le h]
  | cons v vs ih =>
    rw [List.foldl_cons, ih (pushBuf b0 v) (pushBuf_length_le b0 v)]
    rw [pushBuf_eq]
    rw [List.append_assoc, sliceLast_append_left 60 59 b0 ([v] ++ vs) (by simp; omega)]
    simp

/-! ## Data model -/

/-- `TelemetryData.mode`. -/
inductive TMode
  | load
  | charge
  | standby
deriving DecidableEq

/-- The `TelemetryData` interface.  `power` is declared as a number but the
push path guards every use with `?? voltage * current`, so it is modelled as
optional; `simulated` and `inputVoltage` are optional in the interface. -/
structure Telemetry where
  timestamp : ℚ
  voltage : ℚ
  current : ℚ
  power : Option ℚ
  temperature : ℚ
  mode : TMode
  warnings : List String
  simulated : Option Bool
  inputVoltage : Option ℚ
deriving DecidableEq

inductive Transport
  | webserial
  | bridge
  | simulation
deriving DecidableEq

/-- The three mutually-exclusive output modes of `activeOutputMode`
(`null` is modelled as `Option.none` at use sites). -/
inductive OutputMode
  | load
  | battery
  | mobile
deriving DecidableEq

/-- `ChargingSettings` (the `profile` field is the constant `"liion_hv"`). -/
structure ChargingSettings where
  vmax : ℚ
  imax : ℚ
  itermPct : ℚ
  timeoutMin : ℚ
  capacity_mAh : ℚ
deriving DecidableEq

/-- `MobileChargeSettings`. -/
structure MobileChargeSettings where
  name : Option String
  voltage : ℚ
  current : ℚ
  durationSec : ℚ
deriving DecidableEq

/-- The four sparkline history buffers. -/
structure Buffers where
  inputPower : List ℚ
  outputPower : List ℚ
  outputVoltage : List ℚ
  outputCurrent : List ℚ
deriving DecidableEq

/-- A toast emitted through the external `useToast` hook. -/
structure Toast where
  title : String
  description : String
deriving DecidableEq

/-- The coordinator state: every `useState` cell and mutable ref of the
`Index` component that the telemetry/mode logic reads or writes.
`simScheduled`, `rampScheduled` and `pollingScheduled` model whether
`simIntervalRef`, `inputRampRef` and `pollingRef` hold a live interval. -/
structure State where
  outputEnabled : Bool
  isCharging : Bool
  isMobileCharging : Bool
  connected : Bool
  transport : Transport
  activeOutputMode : Option OutputMode
  currentBatterySettings : Option ChargingSettings
  currentMobileSettings : Option MobileChargeSettings
  targetVoltage : ℚ
  targetCurrent : ℚ
  telemetry : Telemetry
  buffers : Buffers
  simScheduled : Bool
  rampScheduled : Bool
  pollingScheduled : Bool
  firstRealReceived : Bool
  lastInputValue : ℚ
deriving DecidableEq

/-- The component's initial state after mount: `useState` initialisers plus
the first run of the simulator `useEffect` (which schedules the simulator,
since the initial transport is `simulation`).  `t0` is `Date.now()` at
mount. -/
def initialState (t0 : ℚ) : State where
  outputEnabled := false
  isCharging := false
  isMobileCharging := false
  connected := false
  transport := .simulation
  activeOutputMode := none
  currentBatterySettings := none
  currentMobileSettings := none
  targetVoltage := 5
  targetCurrent := 1
  telemetry :=
    { timestamp := t0
      voltage := 0
      current := 0
      power := some 0
      temperature := 25
      mode := .standby
      warnings := []
      simulated := some true
      inputVoltage := none }
  buffers :=
    { inputPower := List.replicate 60 0
      outputPower := List.replicate 60 0
      outputVoltage := List.replicate 60 0
      outputCurrent := List.replicate 60 0 }
  simScheduled := true
  rampScheduled := false
  pollingScheduled := false
  firstRealReceived := false
  lastInputValue := 0

/-! ## Mode arbiter (`requestStart` / `stopActiveOutput`) and helpers -/

def modeName : OutputMode → String
  | .load => "load"
  | .battery => "battery"
  | .mobile => "mobile"

/-- `computeActivePin`: the setpoint input power of the active mode. -/
def computeActivePin (st : State) : ℚ :=
  match st.activeOutputMode with
  | some .load => toFixed3 (st.targetVoltage * st.targetCurrent)
  | some .battery =>
    match st.currentBatterySettings with
    | some s => toFixed3 (s.vmax * s.imax)
    | none => 0
  | some .mobile =>
    match st.currentMobileSettings with
    | some s => toFixed3 (s.voltage * s.current)
    | none => 0
  | none => 0

/-- `readLastInputValue`: `lastInputValueRef.current` always holds a number
(it is initialised to `0` and only ever assigned numbers), so the
`?? sparklineData.inputPower[...] ?? 0` fallbacks are dead code. -/
def readLastInputValue (st : State) : ℚ := st.lastInputValue

/-- State effect of `startInputPowerRamp`: cancel any in-flight ramp and
schedule a fresh one.  The timed emissions are modelled by `rampLoop`. -/
def startInputPowerRampState (st : State) : State := { st with rampScheduled := true }

def startBackendPolling (st : State) : State := { st with pollingScheduled := true }

def stopBackendPolling (st : State) : State := { st with pollingScheduled := false }

/-- The rejection toast of `requestStart`, naming the currently-active
mode. -/
def rejectToast (active mode : OutputMode) : Toast where
  title := "Stop previous output first"
  description :=
    "Active output: " ++ modeName active ++ ". Stop it before starting " ++
      modeName mode ++ "."

/-- The toast emitted by `stopActiveOutput`. -/
def stopToast (prev : OutputMode) : Toast where
  title := "Output stopped"
  description := "Stopped " ++ modeName prev ++ " output."

/-- The optional `settings` argument of `requestStart`. -/
inductive StartSettings
  | omitted
  | battery (s : ChargingSettings)
  | mobile (s : MobileChargeSettings)
deriving DecidableEq

/-- The accepting branch of `requestStart`: record the active mode, refresh
the mode's settings when supplied, and enable output for load mode. -/
def requestStartAccept (st : State) (mode : OutputMode) (settings : StartSettings) :
    Bool × State × List Toast :=
  let st1 := { st with activeOutputMode := some mode }
  let st2 :=
    match mode, settings with
    | .battery, .battery s => { st1 with currentBatterySettings := some s }
    | .mobile, .mobile s => { st1 with currentMobileSettings := some s }
    | .load, _ => { st1 with outputEnabled := true }
    | _, _ => st1
  (true, st2, [])

/-- `requestStart(mode, settings?)` (lines 137–151): enforce the single
active output mode.  Returns `(accepted, state, toasts)`. -/
def requestStart (st : State) (mode : OutputMode) (settings : StartSettings) :
    Bool × State × List Toast :=
  match st.activeOutputMode with
  | some active =>
    if active ≠ mode then (false, st, [rejectToast active mode])
    else requestStartAccept st mode settings
  | none => requestStartAccept st mode settings

/-- `stopActiveOutput` (lines 153–171): clear the active mode
unconditionally; early-return no-op when none is active. -/
def stopActiveOutput (st : State) : State × List Toast :=
  match st.activeOutputMode with
  | none => (st, [])
  | some prev =>
    let st1 := { st with activeOutputMode := none }
    let st2 :=
      match prev with
      | .load =>
        stopBackendPolling (startInputPowerRampState { st1 with outputEnabled := false })
      | .battery => { st1 with isCharging := false, currentBatterySettings := none }
      | .mobile =>
        { st1 with isMobileCharging := false, currentMobileSettings := none,
                   outputEnabled := false }
    (st2, [stopToast prev])

/-! ## Freshness gate and displayed metrics -/

/-- `hasRealTelemetry` (lines 502–504): the freshness gate.  `timestamp` is
always a number in the model, so the `typeof` guard always passes. -/
def hasRealTelemetry (t : Telemetry) (now : ℚ) : Bool :=
  (t.simulated == some false) && decide (now - t.timestamp < 5000)

/-- The four displayed header metrics.  `outputPower` is optional because a
push-delivered sample may omit `power` and the real-telemetry branch
forwards it as is. -/
structure Metrics where
  inputPower : ℚ
  outputPower : Option ℚ
  outputVoltage : ℚ
  outputCurrent : ℚ
deriving DecidableEq

def zeroMetrics : Metrics where
  inputPower := 0
  outputPower := some 0
  outputVoltage := 0
  outputCurrent := 0

/-- `displayedMetrics` (lines 506–553): prefer recent real telemetry,
otherwise fall back to the active mode's setpoints, or zeros. -/
def displayedMetrics (st : State) (now : ℚ) : Metrics :=
  if hasRealTelemetry st.telemetry now then
    { inputPower := st.telemetry.inputVoltage.getD 0
      outputPower := st.telemetry.power
      outputVoltage := st.telemetry.voltage
      outputCurrent := st.telemetry.current }
  else
    match st.activeOutputMode with
    | none => zeroMetrics
    | some .load =>
      { inputPower := 12
        outputPower := some (toFixed3 (st.targetVoltage * st.targetCurrent))
        outputVoltage := st.targetVoltage
        outputCurrent := st.targetCurrent }
    | some .battery =>
      match st.currentBatterySettings with
      | some s =>
        { inputPower := 12
          outputPower := some (toFixed3 (s.vmax * s.imax))
          outputVoltage := s.vmax
          outputCurrent := s.imax }
      | none => zeroMetrics
    | some .mobile =>
      match st.currentMobileSettings with
      | some s =>
        { inputPower := 12
          outputPower := some (toFixed3 (s.voltage * s.current))
          outputVoltage := s.voltage
          outputCurrent := s.current }
      | none => zeroMetrics

/-! ## Telemetry sources: poll, push, simulator -/

/-- The JSON body returned by `GET /read`; every field may be absent. -/
structure PollBody where
  timestamp : Option ℚ
  voltage : Option ℚ
  current : Option ℚ
  power : Option ℚ
  temperature : Option ℚ
  mode : Option String
  warnings : Option (List String)
  inputVoltage : Option ℚ
deriving DecidableEq

/-- `data.mode === 'charge' ? 'charge' : data.mode === 'load' ? 'load' :
'standby'`. -/
def parseMode : Option String → TMode
  | some m => if m = "charge" then .charge else if m = "load" then .load else .standby
  | none => .standby

/-- Validation/mapping of a poll body into `TelemetryData` (lines 185–195).
`now` is `Date.now()` at the tick; `lastTemp` is the current
`telemetry.temperature`.  Note that a missing `inputVoltage` is coerced to
`0` here, so the mapped sample always carries a (possibly zero)
`inputVoltage`. -/
def pollValidate (body : PollBody) (now lastTemp : ℚ) : Telemetry where
  timestamp := body.timestamp.getD now
  voltage := body.voltage.getD 0
  current := body.current.getD 0
  power := some (body.power.getD ((body.voltage.getD 0) * (body.current.getD 0)))
  temperature := body.temperature.getD lastTemp
  mode := parseMode body.mode
  warnings := body.warnings.getD []
  simulated := some false
  inputVoltage := some (body.inputVoltage.getD 0)

/-- The successful-poll continuation (lines 196–227).  On the first sample
since the flag was cleared it stops the simulator and seeds all four
buffers with constants; afterwards it appends to all four.  (The code
computes `usingRealDevice` here but never reads it, so the first-real
branch runs regardless of the connection state.)  The `getD 0` on `power`
merely unwraps the value `pollValidate` always supplies. -/
def pollOk (st : State) (body : PollBody) (now : ℚ) : State :=
  let newTelemetry := pollValidate body now st.telemetry.temperature
  let st1 := { st with telemetry := newTelemetry }
  if st.firstRealReceived = false then
    let inputVal := toFixed3 ((newTelemetry.inputVoltage).getD newTelemetry.voltage)
    { st1 with
      firstRealReceived := true
      simScheduled := false
      buffers :=
        { inputPower := List.replicate 60 inputVal
          outputPower := List.replicate 60 (toFixed3 ((newTelemetry.power).getD 0))
          outputVoltage := List.replicate 60 (toFixed3 newTelemetry.voltage)
          outputCurrent := List.replicate 60 (toFixed3 newTelemetry.current) }
      lastInputValue := inputVal }
  else
    { st1 with
      buffers :=
        { inputPower :=
            pushBuf st.buffers.inputPower
              (toFixed3 ((newTelemetry.inputVoltage).getD newTelemetry.voltage))
          outputPower := pushBuf st.buffers.outputPower (toFixed3 ((newTelemetry.power).getD 0))
          outputVoltage := pushBuf st.buffers.outputVoltage (toFixed3 newTelemetry.voltage)
          outputCurrent := pushBuf st.buffers.outputCurrent (toFixed3 newTelemetry.current) } }

/-- The `device-telemetry` push handler `onDeviceTelemetry` (lines 243–280).
The listener is re-registered on every `connected`/`transport` change, so
those values are current when it runs.  After the first real sample the
handler appends to the three output buffers and leaves `inputPower` alone
(it is driven by user/start logic). -/
def onDeviceTelemetry (st : State) (detail : Telemetry) : State :=
  let newTelemetry := { detail with simulated := some false }
  let st1 := { st with telemetry := newTelemetry }
  let usingRealDevice := st.connected && !(st.transport == Transport.simulation)
  if usingRealDevice && !st.firstRealReceived then
    let power := (newTelemetry.power).getD (newTelemetry.voltage * newTelemetry.current)
    let inputVal := power * (105 / 100)
    { st1 with
      firstRealReceived := true
      simScheduled := false
      buffers :=
        { inputPower := List.replicate 60 (toFixed3 inputVal)
          outputPower := List.replicate 60 (toFixed3 power)
          outputVoltage := List.replicate 60 (toFixed3 newTelemetry.voltage)
          outputCurrent := List.replicate 60 (toFixed3 newTelemetry.current) }
      lastInputValue := toFixed3 inputVal }
  else
    { st1 with
      buffers :=
        { st.buffers with
          outputPower :=
            pushBuf st.buffers.outputPower
              (toFixed3 ((newTelemetry.power).getD (newTelemetry.voltage * newTelemetry.current)))
          outputVoltage := pushBuf st.buffers.outputVoltage (toFixed3 newTelemetry.voltage)
          outputCurrent := pushBuf st.buffers.outputCurrent (toFixed3 newTelemetry.current) } }

/-- Oracle values for the `Math.sin`/`Math.cos` calls of one simulator tick
at wall-clock `time` (the trigonometric functions are irrational, so the
tick carries their values as inputs). -/
structure SimTickInputs where
  time : ℚ
  sin5000 : ℚ
  cos3000 : ℚ
  sin7000 : ℚ
  cos6000 : ℚ
  sin8000 : ℚ
  sinOut : ℚ
  sinIdle : ℚ
deriving DecidableEq

/-- One simulator interval tick (lines 298–338); it can only fire while the
simulator interval is scheduled. -/
def simTick (st : State) (inp : SimTickInputs) : State :=
  if st.simScheduled = false then st
  else
    let baseVoltage : ℚ := if st.outputEnabled then 5 + inp.sin5000 * (3 / 2) else 0
    let baseCurrent : ℚ := if st.outputEnabled then (3 / 5) + inp.cos3000 * (12 / 100) else 0
    let power := toFixed3 (baseVoltage * baseCurrent)
    let simulatedTelemetry : Telemetry :=
      { timestamp := inp.time
        voltage := toFixed3 (max 0 (baseVoltage + inp.sin7000 * (2 / 100)))
        current := toFixed4 (max 0 (baseCurrent + inp.cos6000 * (1 / 100)))
        power := some power
        temperature := toFixed2 (25 + inp.sin8000 * 4)
        mode := if st.outputEnabled then .load else .standby
        warnings := []
        simulated := some true
        inputVoltage := none }
    let targetPin := computeActivePin st
    let inputValue := if st.outputEnabled then targetPin else readLastInputValue st
    let outputPowerValue :=
      if st.outputEnabled then toFixed3 (power + inp.sinOut * (2 / 10))
      else toFixed3 (inp.sinIdle * (5 / 100))
    { st with
      telemetry := simulatedTelemetry
      lastInputValue := inputValue
      buffers :=
        { inputPower := pushBuf st.buffers.inputPower (toFixed3 inputValue)
          outputPower := pushBuf st.buffers.outputPower outputPowerValue
          outputVoltage := pushBuf st.buffers.outputVoltage simulatedTelemetry.voltage
          outputCurrent := pushBuf st.buffers.outputCurrent simulatedTelemetry.current } }

/-! ## The event-level step relation -/

/-- Outcome of one poll tick: the fetch rejects (`netError`), returns a
non-ok response (`notOk`), returns an empty/null JSON body (`nullBody`), or
succeeds with a body (`ok`, with `now` the tick's `Date.now()`). -/
inductive PollResult
  | netError
  | notOk
  | nullBody
  | ok (body : PollBody) (now : ℚ)
deriving DecidableEq

/-- One asynchronous event of the single-threaded scheduler. -/
inductive Event
  | simTick (inp : SimTickInputs)
  | pollComplete (r : PollResult)
  | push (detail : Telemetry)
  | simEffectRerun
  | connectionChange (connectedFlag : Bool) (tr : Transport)
deriving DecidableEq

/-- `shouldRunSim` from the simulator `useEffect` (line 289). -/
def shouldRunSim (st : State) : Bool :=
  !(st.connected && !(st.transport == Transport.simulation) && st.firstRealReceived)

/-- A re-run of the simulator `useEffect` (lines 287–347): clear any
previous interval, then schedule a fresh one iff `shouldRunSim`. -/
def simEffectRerunState (st : State) : State := { st with simScheduled := shouldRunSim st }

/-- `handleConnectionChange` (lines 364–378). -/
def handleConnectionChange (st : State) (connectedFlag : Bool) (tr : Transport) : State :=
  let st1 := { st with connected := connectedFlag, transport := tr }
  if connectedFlag && !(tr == Transport.simulation) then
    startBackendPolling { st1 with firstRealReceived := false }
  else
    stopBackendPolling st1

/-- Process one event, returning the new state and the toasts surfaced to
the user.  None of these handlers toast; in particular every poll failure
is swallowed silently (lines 228–231). -/
def handleEvent (st : State) : Event → State × List Toast
  | .simTick inp => (simTick st inp, [])
  | .pollComplete .netError => (st, [])
  | .pollComplete .notOk => (st, [])
  | .pollComplete .nullBody => (st, [])
  | .pollComplete (.ok body now) =>
    (if st.pollingScheduled = false then st else pollOk st body now, [])
  | .push detail => (onDeviceTelemetry st detail, [])
  | .simEffectRerun => (simEffectRerunState st, [])
  | .connectionChange c tr => (handleConnectionChange st c tr, [])

/-- The state part of `handleEvent`. -/
def step (st : State) (e : Event) : State := (handleEvent st e).1

/-- Process a sequence of events in order. -/
def run (st : State) (evs : List Event) : State := List.foldl step st evs

/-! ## The ramp engine -/

/-- The interval callback of `startInputPowerRamp` (lines 108–130) as a
fuel-indexed loop.  `stepIndex` counts interval firings so far; each firing
increments it, emits
`Number((startVal + delta * min(1, stepIndex/steps)).toFixed(3))` into the
input-power buffer, and clears the interval once the fraction reaches `1`
(that is, at `stepIndex = steps`).  `fuel` bounds the number of firings
considered; any `fuel ≥ steps` yields the same emission list. -/
def rampLoop (startVal delta : ℚ) (steps : ℕ) : ℕ → ℕ → List ℚ
  | 0, _ => []
  | fuel + 1, stepIndex =>
    let i := stepIndex + 1
    let fraction := min 1 ((i : ℚ) / (steps : ℚ))
    let value := toFixed3 (startVal + delta * fraction)
    if 1 ≤ fraction then [value]
    else value :: rampLoop startVal delta steps fuel i

/-- The values emitted by `startInputPowerRamp(targetPin, steps, _)` when
the ramp starts from last input value `startVal`. -/
def rampEmissions (startVal targetPin : ℚ) (steps fuel : ℕ) : List ℚ :=
  rampLoop startVal (targetPin - startVal) steps fuel 0

/-! ## Concrete fixtures used by witnesses -/

/-- A real (non-simulated) sample with timestamp `0`. -/
def sampleReal0 : Telemetry where
  timestamp := 0
  voltage := 1
  current := 1
  power := some 1
  temperature := 25
  mode := .standby
  warnings := []
  simulated := some false
  inputVoltage := none

/-- A push-delivered sample (the `power` field absent, as the handler's
`?? voltage * current` fallback anticipates). -/
def samplePush : Telemetry where
  timestamp := 2000
  voltage := 9
  current := 2
  power := none
  temperature := 30
  mode := .load
  warnings := []
  simulated := none
  inputVoltage := some 12

/-- The poll body of the end-to-end scenario:
`{timestamp: now, voltage: 5.0, current: 0.6}`, all other fields absent. -/
def pollBodyC2 : PollBody where
  timestamp := some 1000
  voltage := some 5
  current := some (3 / 5)
  power := none
  temperature := none
  mode := none
  warnings := none
  inputVoltage := none

/-- Concrete trigonometric-oracle values for one simulator tick. -/
def simInp1 : SimTickInputs where
  time := 3000
  sin5000 := 0
  cos3000 := 1
  sin7000 := 0
  cos6000 := 1
  sin8000 := 0
  sinOut := 0
  sinIdle := 1

/-- Concrete battery-charge settings. -/
def sBat : ChargingSettings where
  vmax := 21 / 5
  imax := 2
  itermPct := 10
  timeoutMin := 120
  capacity_mAh := 2000

/-- A second, different battery-charge settings value. -/
def sBat2 : ChargingSettings where
  vmax := 4
  imax := 1
  itermPct := 5
  timeoutMin := 60
  capacity_mAh := 1000

/-- Concrete mobile-charge settings. -/
def sMob : MobileChargeSettings where
  name := some "phone"
  voltage := 5
  current := 2
  durationSec := 3600

/-- A state in which battery mode is active with settings `sBat`. -/
def stBatteryActive : State :=
  { initialState 0 with
    activeOutputMode := some .battery
    currentBatterySettings := some sBat
    isCharging := true }

/-! ## C4: ring-buffer length bound and FIFO contents -/

/-- C4: for every sequence of pushed values, a channel built by the
`[...prev.slice(-59), v].slice(-60)` update from the empty history equals
the last 60 pushed values in FIFO order (oldest first), its length never
exceeds 60, and a single push on any buffer of length at most 60 keeps the
length at most 60. -/
theorem ringbuffer_last60_fifo (vs : List ℚ) (buf : List ℚ) (v : ℚ) :
    List.foldl pushBuf [] vs = sliceLast 60 vs ∧
    (List.foldl pushBuf [] vs).length ≤ 60 ∧
    (pushBuf buf v).length ≤ 60 := by
  have hfold : List.foldl pushBuf [] vs = sliceLast 60 vs := by
    simpa using foldl_pushBuf [] vs (by simp)
  refine ⟨hfold, ?_, pushBuf_length_le buf v⟩
  rw [hfold, sliceLast_length]
  omega

/-! ## C6: the freshness gate -/

/-- C6: `hasRealTelemetry` is true exactly when the sample's origin is real
(`simulated === false`) and `now - timestamp < 5000`; in particular it is
false for any sample at least 5000 old even when real, and false for any
non-real origin regardless of age. -/
theorem hasRealTelemetry_iff (t : Telemetry) (now : ℚ) :
    (hasRealTelemetry t now = true ↔
      t.simulated = some false ∧ now - t.timestamp < 5000) ∧
    (5000 ≤ now - t.timestamp → hasRealTelemetry t now = false) ∧
    (t.simulated ≠ some false → hasRealTelemetry t now = false) := by
  refine ⟨?_, ?_, ?_⟩
  · simp [hasRealTelemetry]
  · intro hage
    simp [hasRealTelemetry]
    intro _
    linarith
  · intro horigin
    simp [hasRealTelemetry]
    intro hsim
    exact absurd hsim horigin

/-- C6 witness: a stale real sample is untrusted, a simulated sample is
untrusted at any age, and a fresh real sample is trusted. -/
theorem hasRealTelemetry_iff_witness :
    hasRealTelemetry sampleReal0 6000 = false ∧
    hasRealTelemetry { sampleReal0 with simulated := some true } 100 = false ∧
    hasRealTelemetry sampleReal0 100 = true :=
  ⟨(hasRealTelemetry_iff sampleReal0 6000).2.1 (by norm_num [sampleReal0]),
   (hasRealTelemetry_iff { sampleReal0 with simulated := some true } 100).2.2 (by simp),
   (hasRealTelemetry_iff sampleReal0 100).1.mpr ⟨rfl, by norm_num [sampleReal0]⟩⟩

/-! ## C8: poll failures are silent no-ops -/

/-- C8: on a poll tick whose fetch rejects, returns a non-ok response, or
returns an empty body, the handler leaves the entire state unchanged
(telemetry, all four buffers, the first-real flag, the last-input value and
the still-scheduled polling interval are all fields of `State`) and
surfaces no toast; the interval is untouched, so the next tick retries with
no backoff and no circuit breaker. -/
theorem poll_failure_silent_noop (st : State) :
    handleEvent st (.pollComplete .netError) = (st, []) ∧
    handleEvent st (.pollComplete .notOk) = (st, []) ∧
    handleEvent st (.pollComplete .nullBody) = (st, []) :=
  ⟨rfl, rfl, rfl⟩

/-! ## C9: push after first real sample writes only the output channels -/

/-- C9: once the first real sample has been received, a push-delivered
telemetry event appends exactly one value to each of the `outputPower`,
`outputVoltage` and `outputCurrent` buffers and leaves the `inputPower`
buffer entirely unchanged. -/
theorem push_appends_outputs_only (st : State) (d : Telemetry)
    (h : st.firstRealReceived = true) :
    (step st (.push d)).buffers.inputPower = st.buffers.inputPower ∧
    (step st (.push d)).buffers.outputPower =
      pushBuf st.buffers.outputPower (toFixed3 (d.power.getD (d.voltage * d.current))) ∧
    (step st (.push d)).buffers.outputVoltage =
      pushBuf st.buffers.outputVoltage (toFixed3 d.voltage) ∧
    (step st (.push d)).buffers.outputCurrent =
      pushBuf st.buffers.outputCurrent (toFixed3 d.current) := by
  simp [step, handleEvent, onDeviceTelemetry, h]

/-- C9 witness at a concrete post-first-real state and sample. -/
theorem push_appends_outputs_only_witness :
    (step { initialState 0 with firstRealReceived := true } (.push samplePush)).buffers.inputPower =
      ({ initialState 0 with firstRealReceived := true } : State).buffers.inputPower ∧
    (step { initialState 0 with firstRealReceived := true } (.push samplePush)).buffers.outputPower =
      pushBuf ({ initialState 0 with firstRealReceived := true } : State).buffers.outputPower
        (toFixed3 (samplePush.power.getD (samplePush.voltage * samplePush.current))) ∧
    (step { initialState 0 with firstRealReceived := true } (.push samplePush)).buffers.outputVoltage =
      pushBuf ({ initialState 0 with firstRealReceived := true } : State).buffers.outputVoltage
        (toFixed3 samplePush.voltage) ∧
    (step { initialState 0 with firstRealReceived := true } (.push samplePush)).buffers.outputCurrent =
      pushBuf ({ initialState 0 with firstRealReceived := true } : State).buffers.outputCurrent
        (toFixed3 samplePush.current) :=
  push_appends_outputs_only { initialState 0 with firstRealReceived := true } samplePush rfl

/-! ## C3: the arbiter rejects starting a second mode -/

/-- C3: while battery mode is active with settings `s`, a
`requestStart(mobile, s2)` returns `false`, leaves the state completely
unchanged, and surfaces a rejection toast naming the currently-active mode
(no exception is thrown: `requestStart` returns normally); a `requestStart`
of the already-active mode is accepted and refreshes its settings. -/
theorem requestStart_rejects_second_mode (st : State) (s : ChargingSettings)
    (s2 : MobileChargeSettings)
    (hA : st.activeOutputMode = some .battery) (hS : st.currentBatterySettings = some s) :
    requestStart st .mobile (.mobile s2) = (false, st, [rejectToast .battery .mobile]) ∧
    (rejectToast .battery .mobile).description =
      "Active output: battery. Stop it before starting mobile." ∧
    ∀ s3 : ChargingSettings,
      (requestStart st .battery (.battery s3)).1 = true ∧
      (requestStart st .battery (.battery s3)).2.1 =
        { st with currentBatterySettings := some s3 } := by
  refine ⟨?_, rfl, ?_⟩
  · simp [requestStart, hA]
  · intro s3
    refine ⟨by simp [requestStart, hA, requestStartAccept], ?_⟩
    simp only [requestStart, hA, requestStartAccept]
    cases st
    simp_all

/-- C3 witness at a concrete battery-active state. -/
theorem requestStart_rejects_second_mode_witness :
    requestStart stBatteryActive .mobile (.mobile sMob) =
      (false, stBatteryActive, [rejectToast .battery .mobile]) ∧
    (rejectToast .battery .mobile).description =
      "Active output: battery. Stop it before starting mobile." ∧
    ∀ s3 : ChargingSettings,
      (requestStart stBatteryActive .battery (.battery s3)).1 = true ∧
      (requestStart stBatteryActive .battery (.battery s3)).2.1 =
        { stBatteryActive with currentBatterySettings := some s3 } :=
  requestStart_rejects_second_mode stBatteryActive sBat sMob rfl rfl

/-! ## C7: stop clears the active mode and enables any restart -/

/-- C7: `stopActiveOutput` leaves no active mode in every state, so any
subsequent `requestStart` (of any mode) is accepted; calling it when no
mode is active is a complete no-op (state unchanged, no toast); and the
sequence start-load, stop, start-mobile accepts the final call. -/
theorem stopActiveOutput_clears_and_allows_restart (st : State) (s : MobileChargeSettings)
    (h : st.activeOutputMode = none) :
    (∀ u : State, ((stopActiveOutput u).1).activeOutputMode = none) ∧
    (∀ u : State, ∀ m stg, (requestStart (stopActiveOutput u).1 m stg).1 = true) ∧
    stopActiveOutput st = (st, []) ∧
    (requestStart st .load .omitted).1 = true ∧
    (requestStart (stopActiveOutput (requestStart st .load .omitted).2.1).1
        .mobile (.mobile s)).1 = true := by
  have hclear : ∀ u : State, ((stopActiveOutput u).1).activeOutputMode = none := by
    intro u
    cases hm : u.activeOutputMode with
    | none => simp [stopActiveOutput, hm]
    | some prev =>
      cases prev <;>
        simp [stopActiveOutput, hm, stopBackendPolling, startInputPowerRampState]
  have hrestart : ∀ u : State, ∀ m stg, (requestStart (stopActiveOutput u).1 m stg).1 = true := by
    intro u m stg
    simp [requestStart, hclear u, requestStartAccept]
  exact ⟨hclear, hrestart, by simp [stopActiveOutput, h],
    by simp [requestStart, h, requestStartAccept], hrestart _ _ _⟩

/-- C7 witness at the initial (no-active-mode) state. -/
theorem stopActiveOutput_clears_and_allows_restart_witness :
    (∀ u : State, ((stopActiveOutput u).1).activeOutputMode = none) ∧
    (∀ u : State, ∀ m stg, (requestStart (stopActiveOutput u).1 m stg).1 = true) ∧
    stopActiveOutput (initialState 0) = (initialState 0, []) ∧
    (requestStart (initialState 0) .load .omitted).1 = true ∧
    (requestStart (stopActiveOutput (requestStart (initialState 0) .load .omitted).2.1).1
        .mobile (.mobile sMob)).1 = true :=
  stopActiveOutput_clears_and_allows_restart (initialState 0) sMob rfl

/-! ## C10: the setpoint fallback shows a constant 12.0 input power -/

/-- C10: whenever no fresh real telemetry exists and a mode is active (with
its settings present for battery/mobile), the displayed input power is the
constant `12.0` — independent of the active mode, its settings, the
configured targets and the ramp state — while the displayed output
voltage/current/power are derived from the active setpoint. -/
theorem displayedMetrics_fallback_input_12 (st : State) (now : ℚ)
    (h : hasRealTelemetry st.telemetry now = false) :
    (st.activeOutputMode = some .load →
      displayedMetrics st now =
        { inputPower := 12
          outputPower := some (toFixed3 (st.targetVoltage * st.targetCurrent))
          outputVoltage := st.targetVoltage
          outputCurrent := st.targetCurrent }) ∧
    (∀ bs, st.activeOutputMode = some .battery → st.currentBatterySettings = some bs →
      displayedMetrics st now =
        { inputPower := 12
          outputPower := some (toFixed3 (bs.vmax * bs.imax))
          outputVoltage := bs.vmax
          outputCurrent := bs.imax }) ∧
    (∀ ms, st.activeOutputMode = some .mobile → st.currentMobileSettings = some ms →
      displayedMetrics st now =
        { inputPower := 12
          outputPower := some (toFixed3 (ms.voltage * ms.current))
          outputVoltage := ms.voltage
          outputCurrent := ms.current }) := by
  refine ⟨?_, ?_, ?_⟩
  · intro hm
    simp [displayedMetrics, h, hm]
  · intro bs hm hbs
    simp [displayedMetrics, h, hm, hbs]
  · intro ms hm hms
    simp [displayedMetrics, h, hm, hms]

/-- C10 witness at a concrete load-active state with simulated telemetry. -/
theorem displayedMetrics_fallback_input_12_witness :
    hasRealTelemetry ({ initialState 0 with
      activeOutputMode := some OutputMode.load } : State).telemetry 0 = false ∧
    displayedMetrics { initialState 0 with activeOutputMode := some OutputMode.load } 0 =
      { inputPower := 12
        outputPower := some (toFixed3 (5 * 1))
        outputVoltage := 5
        outputCurrent := 1 } :=
  ⟨rfl,
   (displayedMetrics_fallback_input_12
      { initialState 0 with activeOutputMode := some OutputMode.load } 0 rfl).1 rfl⟩

/-! ## C2: end-to-end first poll over the bridge transport -/

/-- Connect with `transport = bridge` (the simulator `useEffect` re-runs on
the connection change), then the first poll succeeds with `pollBodyC2`. -/
def bridgeConnectScenario : List Event :=
  [.connectionChange true .bridge, .simEffectRerun,
   .pollComplete (.ok pollBodyC2 1000)]

/-- C2 counterexample: the input channel is NOT seeded with the sample's
voltage `5.0`.  Poll validation coerces the absent `inputVoltage` to `0`
before the `?? voltage` fallback can apply, so the seed value is `0`. -/
theorem first_poll_input_seed_counterexample :
    (run (initialState 0) bridgeConnectScenario).buffers.inputPower ≠
      List.replicate 60 5 := by
  with_unfolding_all decide

/-- C2 (amended): after connecting over the bridge, the first poll returning
`{timestamp: now, voltage: 5.0, current: 0.6}` constant-fills the buffers
with the derived values — `[5.0]×60`, `[0.6]×60`, `[3.0]×60` — while the
input channel fills with `[0.0]×60` (the validated sample's `inputVoltage`,
which defaults to `0` when absent); and the simulator interval is cleared
and stays unscheduled on a subsequent effect re-run. -/
theorem first_poll_seeds_buffers :
    (run (initialState 0) bridgeConnectScenario).buffers.outputVoltage =
      List.replicate 60 5 ∧
    (run (initialState 0) bridgeConnectScenario).buffers.outputCurrent =
      List.replicate 60 (3 / 5) ∧
    (run (initialState 0) bridgeConnectScenario).buffers.outputPower =
      List.replicate 60 3 ∧
    (run (initialState 0) bridgeConnectScenario).buffers.inputPower =
      List.replicate 60 0 ∧
    (run (initialState 0) bridgeConnectScenario).simScheduled = false ∧
    (step (run (initialState 0) bridgeConnectScenario) .simEffectRerun).simScheduled = false := by
  with_unfolding_all decide

/-! ## C5: the input-power ramp -/

theorem one_le_min_frac (steps i : ℕ) (hs : 0 < steps) :
    (1 : ℚ) ≤ min 1 ((i : ℚ) / (steps : ℚ)) ↔ steps ≤ i := by
  have hq : (0 : ℚ) < (steps : ℚ) := by exact_mod_cast hs
  rw [le_min_iff]
  constructor
  · rintro ⟨-, hdiv⟩
    rw [le_div_iff₀ hq] at hdiv
    exact_mod_cast (one_mul (steps : ℚ)) ▸ hdiv
  · intro hle
    refine ⟨le_refl 1, ?_⟩
    rw [le_div_iff₀ hq, one_mul]
    exact_mod_cast hle

/-- One unfolding of the ramp interval callback. -/
theorem rampLoop_succ (s d : ℚ) (steps fuel stepIndex : ℕ) :
    rampLoop s d steps (fuel + 1) stepIndex =
      if 1 ≤ min 1 (((stepIndex + 1 : ℕ) : ℚ) / (steps : ℚ))
      then [toFixed3 (s + d * min 1 (((stepIndex + 1 : ℕ) : ℚ) / (steps : ℚ)))]
      else toFixed3 (s + d * min 1 (((stepIndex + 1 : ℕ) : ℚ) / (steps : ℚ))) ::
        rampLoop s d steps fuel (stepIndex + 1) := rfl

/-- The ramp interval stops at `stepIndex = steps`: any fuel large enough
to reach that point yields the same emission list. -/
theorem rampLoop_fuel_irrelevant (s d : ℚ) (steps : ℕ) (hs : 0 < steps) :
    ∀ f g i, steps ≤ i + 1 + f → steps ≤ i + 1 + g →
      rampLoop s d steps (f + 1) i = rampLoop s d steps (g + 1) i := by
  intro f
  induction f with
  | zero =>
    intro g i hf hg
    have hstop : (1 : ℚ) ≤ min 1 (((i + 1 : ℕ) : ℚ) / (steps : ℚ)) :=
      (one_le_min_frac steps (i + 1) hs).mpr (by omega)
    rw [rampLoop_succ s d steps 0 i, rampLoop_succ s d steps g i,
      if_pos hstop, if_pos hstop]
  | succ f ih =>
    intro g i hf hg
    by_cases hstop : (1 : ℚ) ≤ min 1 (((i + 1 : ℕ) : ℚ) / (steps : ℚ))
    · rw [rampLoop_succ s d steps (f + 1) i, rampLoop_succ s d steps g i,
        if_pos hstop, if_pos hstop]
    · have hlt : i + 1 < steps := by
        by_contra hcon
        exact hstop ((one_le_min_frac steps (i + 1) hs).mpr (by omega))
      obtain ⟨g', rfl⟩ : ∃ g', g = g' + 1 := ⟨g - 1, by omega⟩
      rw [rampLoop_succ s d steps (f + 1) i, rampLoop_succ s d steps (g' + 1) i,
        if_neg hstop, if_neg hstop, ih g' (i + 1) (by omega) (by omega)]

/-- C5 counterexample: the first emitted value of the 0→10 ramp over 12
steps is `0.833` (the code applies `toFixed(3)` to each emission), not the
exact interpolant `10 · 1/12 = 5/6` the claim's formula prescribes. -/
theorem ramp_exact_formula_counterexample :
    (rampEmissions 0 10 12 12).getD 0 0 ≠ 0 + (10 - 0) * min 1 ((0 + 1 : ℚ) / 12) := by
  norm_num [rampEmissions, rampLoop, List.getD, toFixed3, toFixedQ, min_def, round_eq]

/-- C5 (amended): a ramp from 0 to 10 over 12 steps emits exactly 12
values — `value(i) = toFixed3(from + (to-from)·min(1, i/steps))`, the
code's 3-decimal rounding of the claimed interpolant — monotonically
approaching 10, the last emission is exactly 10, and no emission occurs
after step 12 (any fuel ≥ 12 produces the same list). -/
theorem ramp_0_to_10_twelve_steps (fuel : ℕ) (hfuel : 12 ≤ fuel) :
    rampEmissions 0 10 12 fuel = rampEmissions 0 10 12 12 ∧
    (rampEmissions 0 10 12 12).length = 12 ∧
    (∀ i, i < 12 → (rampEmissions 0 10 12 12).getD i 0 =
      toFixed3 (0 + (10 - 0) * min 1 (((i : ℚ) + 1) / 12))) ∧
    (∀ i, i < 11 → (rampEmissions 0 10 12 12).getD i 0 ≤
      (rampEmissions 0 10 12 12).getD (i + 1) 0) ∧
    (rampEmissions 0 10 12 12).getLast? = some 10 := by
  have hlist : rampEmissions 0 10 12 12 =
      [833 / 1000, 1667 / 1000, 5 / 2, 3333 / 1000, 4167 / 1000, 5,
       5833 / 1000, 6667 / 1000, 15 / 2, 8333 / 1000, 9167 / 1000, 10] := by
    norm_num [rampEmissions, rampLoop, toFixed3, toFixedQ, min_def, round_eq]
  refine ⟨?_, ?_, ?_, ?_, ?_⟩
  · obtain ⟨f, rfl⟩ : ∃ f, fuel = f + 1 := ⟨fuel - 1, by omega⟩
    simp only [rampEmissions]
    exact rampLoop_fuel_irrelevant 0 (10 - 0) 12 (by norm_num) f 11 0 (by omega) (by omega)
  · rw [hlist]
    rfl
  · intro i hi
    rw [hlist]
    interval_cases i <;>
      norm_num [List.getD, toFixed3, toFixedQ, min_def, round_eq]
  · intro i hi
    rw [hlist]
    interval_cases i <;> norm_num [List.getD]
  · rw [hlist]
    rfl

/-- C5 witness at the concrete fuel 20. -/
theorem ramp_0_to_10_twelve_steps_witness :
    rampEmissions 0 10 12 20 = rampEmissions 0 10 12 12 ∧
    (rampEmissions 0 10 12 12).length = 12 ∧
    (∀ i, i < 12 → (rampEmissions 0 10 12 12).getD i 0 =
      toFixed3 (0 + (10 - 0) * min 1 (((i : ℚ) + 1) / 12))) ∧
    (∀ i, i < 11 → (rampEmissions 0 10 12 12).getD i 0 ≤
      (rampEmissions 0 10 12 12).getD (i + 1) 0) ∧
    (rampEmissions 0 10 12 12).getLast? = some 10 :=
  ramp_0_to_10_twelve_steps 20 (by norm_num)

/-! ## C1: the first real sample permanently gates the simulator -/

/-- Whether an event is a connection change.  The claim quantifies over
interleavings of simulator ticks, poll completions and push events while
connected on a fixed non-simulation transport, so connection changes are
excluded from the interleaving. -/
def Event.isConnChange : Event → Bool
  | .connectionChange _ _ => true
  | _ => false

/-- A simulator tick with the interval cleared is a complete no-op. -/
theorem simTick_unscheduled_noop (st : State) (inp : SimTickInputs)
    (h : st.simScheduled = false) : step st (.simTick inp) = st := by
  simp [step, handleEvent, simTick, h]

/-- The gate invariant — connected on a non-simulation transport, first
real sample received, simulator interval cleared — is preserved by every
non-connection event. -/
theorem step_gate (st : State) (e : Event) (he : e.isConnChange = false)
    (hc : st.connected = true) (ht : st.transport ≠ Transport.simulation)
    (hf : st.firstRealReceived = true) (hs : st.simScheduled = false) :
    (step st e).connected = true ∧ (step st e).transport ≠ Transport.simulation ∧
    (step st e).firstRealReceived = true ∧ (step st e).simScheduled = false := by
  cases e with
  | simTick inp =>
    rw [simTick_unscheduled_noop st inp hs]
    exact ⟨hc, ht, hf, hs⟩
  | pollComplete r =>
    cases r with
    | netError => exact ⟨hc, ht, hf, hs⟩
    | notOk => exact ⟨hc, ht, hf, hs⟩
    | nullBody => exact ⟨hc, ht, hf, hs⟩
    | ok body now =>
      by_cases hp : st.pollingScheduled = false <;>
        simp [step, handleEvent, hp, pollOk, hf, hc, ht, hs]
  | push detail =>
    simp [step, handleEvent, onDeviceTelemetry, hf, hc, ht, hs]
  | simEffectRerun =>
    have htr : (st.transport == Transport.simulation) = false :=
      beq_eq_false_iff_ne.mpr ht
    simp [step, handleEvent, simEffectRerunState, shouldRunSim, hc, ht, hf, htr]
  | connectionChange c tr => simp [Event.isConnChange] at he

/-- The gate invariant is preserved by every connection-free event
sequence. -/
theorem run_gate (st : State) (evs : List Event)
    (hev : ∀ x ∈ evs, x.isConnChange = false)
    (hc : st.connected = true) (ht : st.transport ≠ Transport.simulation)
    (hf : st.firstRealReceived = true) (hs : st.simScheduled = false) :
    (run st evs).connected = true ∧ (run st evs).transport ≠ Transport.simulation ∧
    (run st evs).firstRealReceived = true ∧ (run st evs).simScheduled = false := by
  induction evs generalizing st with
  | nil => exact ⟨hc, ht, hf, hs⟩
  | cons e evs ih =>
    have h1 := step_gate st e (hev e (by simp)) hc ht hf hs
    exact ih (step st e) (fun x hx => hev x (by simp [hx])) h1.1 h1.2.1 h1.2.2.1 h1.2.2.2

/-- Any event that flips the first-real flag from false to true (a poll
success or a push while on a real device) also clears the simulator
interval and leaves the connection state alone: accepting the first real
sample establishes the gate invariant. -/
theorem accept_establishes_gate (s0 : State) (e : Event)
    (hc : s0.connected = true) (ht : s0.transport ≠ Transport.simulation)
    (h0 : s0.firstRealReceived = false) (h1 : (step s0 e).firstRealReceived = true) :
    (step s0 e).connected = true ∧ (step s0 e).transport ≠ Transport.simulation ∧
    (step s0 e).firstRealReceived = true ∧ (step s0 e).simScheduled = false := by
  cases e with
  | simTick inp =>
    exfalso
    by_cases hs : s0.simScheduled = false
    · rw [simTick_unscheduled_noop s0 inp hs, h0] at h1
      exact Bool.false_ne_true h1
    · simp [step, handleEvent, simTick, hs, h0] at h1
  | pollComplete r =>
    cases r with
    | netError => exfalso; simp [step, handleEvent, h0] at h1
    | notOk => exfalso; simp [step, handleEvent, h0] at h1
    | nullBody => exfalso; simp [step, handleEvent, h0] at h1
    | ok body now =>
      by_cases hp : s0.pollingScheduled = false
      · exfalso
        simp [step, handleEvent, hp, h0] at h1
      · simp [step, handleEvent, hp, pollOk, h0, hc, ht]
  | push detail =>
    by_cases hu : (s0.connected && !(s0.transport == Transport.simulation)) = true
    · simp [step, handleEvent, onDeviceTelemetry, h0, hu, hc, ht]
    · exfalso
      simp [step, handleEvent, onDeviceTelemetry, h0, hu] at h1
  | simEffectRerun =>
    exfalso
    simp [step, handleEvent, simEffectRerunState, h0] at h1
  | connectionChange c tr =>
    exfalso
    by_cases hcc : (c && !(tr == Transport.simulation)) = true <;>
      simp [step, handleEvent, handleConnectionChange, startBackendPolling,
        stopBackendPolling, hcc, h0] at h1

/-- C1: once an event accepts a real sample (flipping the first-real flag)
while connected on a non-simulation transport, then along every subsequent
interleaving of simulator ticks, poll completions, push events and
simulator-effect re-runs, the flag stays set, the simulator interval stays
cleared, and a simulator tick at any later point is a complete no-op — in
particular it folds nothing into any of the four history buffers. -/
theorem first_real_gates_simulator (s0 : State) (e : Event) (evs : List Event)
    (hc : s0.connected = true) (ht : s0.transport ≠ Transport.simulation)
    (hev : ∀ x ∈ evs, x.isConnChange = false)
    (h0 : s0.firstRealReceived = false) (h1 : (step s0 e).firstRealReceived = true) :
    (run (step s0 e) evs).firstRealReceived = true ∧
    (run (step s0 e) evs).simScheduled = false ∧
    ∀ inp, step (run (step s0 e) evs) (.simTick inp) = run (step s0 e) evs := by
  obtain ⟨hc1, ht1, hf1, hs1⟩ := accept_establishes_gate s0 e hc ht h0 h1
  obtain ⟨-, -, hf2, hs2⟩ := run_gate (step s0 e) evs hev hc1 ht1 hf1 hs1
  exact ⟨hf2, hs2, fun inp => simTick_unscheduled_noop _ inp hs2⟩

/-- The connected-over-bridge state in which the C1 witness accepts its
first real sample. -/
def s0C1 : State :=
  { initialState 0 with connected := true, transport := .bridge, pollingScheduled := true }

/-- The accepting event of the C1 witness: a successful poll. -/
def eC1 : Event := .pollComplete (.ok pollBodyC2 1000)

/-- A concrete interleaving of a simulator tick, a push event and an
effect re-run. -/
def evsC1 : List Event := [.simTick simInp1, .push samplePush, .simEffectRerun]

/-- C1 witness at a concrete accepted poll and interleaving. -/
theorem first_real_gates_simulator_witness :
    (run (step s0C1 eC1) evsC1).firstRealReceived = true ∧
    (run (step s0C1 eC1) evsC1).simScheduled = false ∧
    ∀ inp, step (run (step s0C1 eC1) evsC1) (.simTick inp) = run (step s0C1 eC1) evsC1 :=
  first_real_gates_simulator s0C1 eC1 evsC1 rfl (by decide) (by decide) rfl rfl

end PowerHub
